import Mathlib

/-!
Shallow embedding of the awg-manager management service
(src/server/src/cmd/awg-manager/main.go).

Time is modelled as an integer (Unix-style instant); the Go test
now.After(t) is now > t.  IPv4 addresses are four octets; the subnet
CIDR string of the Go code is represented pre-parsed as its first three
base octets plus the mask length (net.ParseCIDR failure is a distinct
allocator error branch orthogonal to the claims).  File persistence and
the external apply command are fallible effects, modelled by explicit
Boolean success flags threaded through the handlers; a failed whole-file
write leaves the persisted collection unchanged (snapshot semantics).
Random key and token generation is modelled by passing the fresh values
as arguments.
-/

/-- IPv4 address as four octets, mirroring the 4-byte net.IP values the
allocator builds with net.IPv4. -/
structure Ip4 where
  o0 : Nat
  o1 : Nat
  o2 : Nat
  o3 : Nat
deriving DecidableEq, Repr

/-- Dotted-decimal rendering, as net.IP.String produces for IPv4. -/
def ip4Str (a : Ip4) : String :=
  toString a.o0 ++ "." ++ toString a.o1 ++ "." ++ toString a.o2 ++ "." ++ toString a.o3

/-- The serverState record of main.go.  SubnetCIDR is held pre-parsed:
subnetBase0-2 are the first three octets of the masked network base
(ipnet.IP.To4) and maskOnes the prefix length from ipnet.Mask.Size;
ServerIP is held as a parsed address (the Go code compares the rendered
candidate string with the stored string; for in-subnet addresses, which
ensureServerState enforces, this coincides with address equality). -/
structure ServerState where
  serverPrivateKey : String
  serverPublicKey  : String
  subnetBase0 : Nat
  subnetBase1 : Nat
  subnetBase2 : Nat
  maskOnes : Nat
  serverIP : Ip4
  nextHost : Int
deriving DecidableEq, Repr

/-- The client record of main.go. -/
structure Client where
  id : String
  name : String
  publicKey : String
  privKey : String
  address : String
  createdAt : Int
  expiresAt : Option Int
deriving DecidableEq, Repr

/-- The clientPublic projection record of main.go. -/
structure ClientPublic where
  id : String
  name : String
  publicKey : String
  address : String
  createdAt : Int
  expiresAt : Option Int
deriving DecidableEq, Repr

/-- Function toPublic of main.go. -/
def toPublic (c : Client) : ClientPublic :=
  { id := c.id
    name := c.name
    publicKey := c.publicKey
    address := c.address
    createdAt := c.createdAt
    expiresAt := c.expiresAt }

/-- The dlToken record of main.go. -/
structure DlToken where
  token : String
  clientId : String
  expiresAt : Int
  used : Bool
deriving DecidableEq, Repr

/-- Expiry test used throughout main.go:
c.ExpiresAt != nil AND now.After(ExpiresAt), i.e. now strictly past it. -/
def clientExpired (c : Client) (now : Int) : Bool :=
  match c.expiresAt with
  | none => false
  | some e => now > e

/-- Fragment strings.Split(addr, "/")[0] used by applyServerConfig. -/
def ipOnly (s : String) : String :=
  (s.splitOn "/").headD ""

/-! ## Address allocator (allocateNextAddress, main.go lines 377-411) -/

/-- Core of allocateNextAddress: candidate construction and cursor
update on the parsed representation; byte(st.NextHost) is the Go uint8
conversion, truncation modulo 256 of the non-negative part. -/
def allocateIp (st : ServerState) : Except String (Ip4 × ServerState) :=
  if st.maskOnes ≠ 24 then
    .error "only /24 supported by allocator currently"
  else if st.nextHost < 2 ∨ 254 < st.nextHost then
    .error "address pool exhausted"
  else
    let cand : Ip4 :=
      ⟨st.subnetBase0, st.subnetBase1, st.subnetBase2, st.nextHost.toNat % 256⟩
    if cand = st.serverIP then
      let nh := st.nextHost + 1
      let cand2 : Ip4 :=
        ⟨st.subnetBase0, st.subnetBase1, st.subnetBase2, nh.toNat % 256⟩
      .ok (cand2, { st with nextHost := nh + 1 })
    else
      .ok (cand, { st with nextHost := st.nextHost + 1 })

/-- Function allocateNextAddress of main.go: the candidate rendered as a
/32 string plus the updated state. -/
def allocateNextAddress (st : ServerState) : Except String (String × ServerState) :=
  match allocateIp st with
  | .error e => .error e
  | .ok (a, st') => .ok (ip4Str a ++ "/32", st')

/-- Sequence of n successive allocations threading the in-memory state;
none if any allocation fails. -/
def allocSeq (st : ServerState) : Nat → Option (List Ip4 × ServerState)
  | 0 => some ([], st)
  | n + 1 =>
    match allocateIp st with
    | .error _ => none
    | .ok (a, st') =>
      match allocSeq st' n with
      | none => none
      | some (as, stf) => some (a :: as, stf)

/-! ## Gateway config render (applyServerConfig, lines 454-481) -/

/-- One peer block as written by the loop body of applyServerConfig. -/
def peerBlock (c : Client) : String :=
  "[Peer]\nPublicKey = " ++ c.publicKey ++ "\nAllowedIPs = " ++ ipOnly c.address ++ "/32\n\n"

/-- The peer-loop of applyServerConfig: expired clients are skipped
(continue), others contribute their peer block in order. -/
def peersText (cs : List Client) (now : Int) : String :=
  match cs with
  | [] => ""
  | c :: rest =>
    (if clientExpired c now then "" else peerBlock c) ++ peersText rest now

/-- Text built by applyServerConfig before it is written to the conf
file and handed to the external awg setconf command. -/
def renderServerConf (st : ServerState) (port : Int) (cs : List Client) (now : Int) : String :=
  "[Interface]\nPrivateKey = " ++ st.serverPrivateKey ++ "\nListenPort = "
    ++ toString port ++ "\n\n" ++ peersText cs now

/-! ## Client config render (renderClientConfig, lines 653-682) -/

/-- Function renderClientConfig of main.go.  extraFile and allowedFile
are the optional auxiliary files (none when the read fails). -/
def renderClientConfig (c : Client) (st : ServerState) (endpoint : String)
    (extraFile allowedFile : Option String) : String :=
  "[Interface]\nPrivateKey = " ++ c.privKey ++ "\nAddress = " ++ c.address ++ "\n"
  ++ (match extraFile with
      | none => ""
      | some bb => if bb.trim = "" then "" else bb.trim ++ "\n")
  ++ "\n[Peer]\nPublicKey = " ++ st.serverPublicKey ++ "\n"
  ++ (if endpoint = "" then "" else "Endpoint = " ++ endpoint ++ "\n")
  ++ "AllowedIPs = "
  ++ (match allowedFile with
      | none => "0.0.0.0/0, ::/0"
      | some bb => if bb.trim = "" then "0.0.0.0/0, ::/0" else bb.trim)
  ++ "\n"

/-! ## Listing (handleClients GET branch, lines 244-261) -/

/-- Body computed by the GET branch of handleClients: the public
projection of every stored client, in storage order. -/
def handleClientsGet (cs : List Client) : List ClientPublic :=
  cs.map toPublic

/-! ## Client creation (createClient, lines 295-375) -/

/-- Responses of the createClient handler that involve the record
state.  Body-shape validation (bad json, empty name, malformed
expiresAt) rejects before any state is read and is outside this model:
name and exp arrive already validated. -/
inductive CreateResp where
  | allocFailed (msg : String)
  | saveErr
  | stateWriteErr
  | applyFailed
  | created (c : Client)
deriving DecidableEq, Repr

/-- Handler createClient after validation: allocate, build the record,
persist clients.json, persist server.json, apply.  saveOk, writeOk and
applyOk model the success of saveClients, writeServerState and
applyServerConfig; the returned list and state are the persisted ones
(a failed snapshot write leaves the previous file in place). -/
def createClient (st : ServerState) (cs : List Client) (name : String)
    (exp : Option Int) (newId privS pubS : String) (now : Int)
    (saveOk writeOk applyOk : Bool) : CreateResp × List Client × ServerState :=
  match allocateNextAddress st with
  | .error e => (.allocFailed e, cs, st)
  | .ok (addr, st') =>
    let c : Client :=
      { id := newId, name := name, publicKey := pubS, privKey := privS
        address := addr, createdAt := now, expiresAt := exp }
    let cs' := cs ++ [c]
    if !saveOk then (.saveErr, cs, st)
    else if !writeOk then (.stateWriteErr, cs', st)
    else if !applyOk then (.applyFailed, cs', st')
    else (.created c, cs', st')

/-! ## Client deletion (deleteClient, lines 413-452) -/

/-- Responses of the deleteClient handler. -/
inductive DeleteResp where
  | notFound
  | saveErr
  | applyFailed
  | noContent
deriving DecidableEq, Repr

/-- Handler deleteClient: filter the record out (404 when absent),
persist, apply.  Returns the response and the persisted client list. -/
def deleteClient (cs : List Client) (id : String) (saveOk applyOk : Bool) :
    DeleteResp × List Client :=
  let out := cs.filter (fun c => c.id ≠ id)
  if !cs.any (fun c => c.id == id) then (.notFound, cs)
  else if !saveOk then (.saveErr, cs)
  else if !applyOk then (.applyFailed, out)
  else (.noContent, out)

/-! ## One-time link issuance (createOneTimeLink, lines 508-566) -/

/-- Decoded request body.  The handler discards the JSON decode error;
a missing or malformed body leaves the zero value, modelled as none at
the outer level. -/
structure LinkReq where
  ttlSeconds : Option Int
deriving DecidableEq, Repr

/-- Lines 514-518: ttl starts at 3600 and is replaced only by a present,
strictly positive ttlSeconds; a failed decode (body = none) keeps the
zero-valued request. -/
def effTTL (body : Option LinkReq) : Int :=
  match body with
  | none => 3600
  | some q =>
    match q.ttlSeconds with
    | none => 3600
    | some t => if t > 0 then t else 3600

/-- Responses of the createOneTimeLink handler. -/
inductive LinkResp where
  | notFound
  | issued (urlPath : String) (expiresAt : Int)
deriving DecidableEq, Repr

/-- Handler createOneTimeLink: decode-or-discard the body, require the
client to exist (no expiry check), append the token, return the public
path and expiry.  newTok is the fresh random token value. -/
def createOneTimeLink (cs : List Client) (ts : List DlToken) (id : String)
    (body : Option LinkReq) (now : Int) (newTok : String) :
    LinkResp × List DlToken :=
  let ttl := effTTL body
  if !cs.any (fun c => c.id == id) then (.notFound, ts)
  else
    let t : DlToken :=
      { token := newTok, clientId := id, expiresAt := now + ttl, used := false }
    (.issued ("/dl/" ++ newTok) (now + ttl), ts ++ [t])

/-! ## Token redemption (handleDownloadToken, lines 568-634) -/

/-- First index whose token equals tok, as the loop at lines 589-595. -/
def findTokenIdx (ts : List DlToken) (tok : String) : Option Nat :=
  match ts with
  | [] => none
  | t :: rest =>
    if t.token == tok then some 0
    else (findTokenIdx rest tok).map (· + 1)

/-- Linear client lookup of findClientAndState (lines 645-650). -/
def findClient (cs : List Client) (id : String) : Option Client :=
  match cs with
  | [] => none
  | c :: rest => if c.id == id then some c else findClient rest id

/-- Outcomes of the download handler, keeping the distinct response
bodies the code writes. -/
inductive RedeemResp where
  | notFound
  | gone
  | expired
  | config (cfg : String)
deriving DecidableEq, Repr

/-- HTTP status the handler sends for each outcome. -/
def redeemStatus (r : RedeemResp) : Nat :=
  match r with
  | .notFound => 404
  | .gone => 410
  | .expired => 410
  | .config _ => 200

/-- Handler handleDownloadToken on a GET request, with tok the path
suffix after the TrimPrefix and TrimSpace of lines 573-574: empty-token
guard, token lookup, used and expiry checks, then mark-used and persist,
then client lookup and render.  Returns the response and the persisted
token list (saveTokens modelled as succeeding; its failure path
rewrites nothing and responds 500). -/
def handleDownloadToken (ts : List DlToken) (cs : List Client) (st : ServerState)
    (endpoint : String) (extraFile allowedFile : Option String)
    (tok : String) (now : Int) : RedeemResp × List DlToken :=
  if tok = "" then (.notFound, ts)
  else
    match findTokenIdx ts tok with
    | none => (.notFound, ts)
    | some i =>
      match ts[i]? with
      | none => (.notFound, ts)
      | some t =>
        if t.used then (.gone, ts)
        else if now > t.expiresAt then (.gone, ts)
        else
          let ts' := ts.set i { t with used := true }
          match findClient cs t.clientId with
          | none => (.notFound, ts')
          | some c =>
            if clientExpired c now then (.expired, ts')
            else (.config (renderClientConfig c st endpoint extraFile allowedFile), ts')

/-! ## Theorems -/

/-- C6: the rendered gateway configuration is the interface section with
the gateway private key and listen port, followed by exactly one peer
block, carrying the client public key and the /32-constrained address,
for each client not expired at render time; clients whose expiry has
passed at render time are omitted. -/
theorem render_omits_expired_clients (st : ServerState) (port : Int)
    (cs : List Client) (now : Int) :
    renderServerConf st port cs now =
      "[Interface]\nPrivateKey = " ++ st.serverPrivateKey ++ "\nListenPort = "
        ++ toString port ++ "\n\n"
        ++ ((cs.filter (fun c => !clientExpired c now)).map peerBlock).foldr
              (fun x r => x ++ r) "" := by
  have h : ∀ l : List Client,
      peersText l now =
        ((l.filter (fun c => !clientExpired c now)).map peerBlock).foldr
          (fun x r => x ++ r) "" := by
    intro l
    induction l with
    | nil => rfl
    | cons c rest ih =>
      by_cases hc : clientExpired c now
      · simp [peersText, List.filter, hc, ih]
      · simp [peersText, List.filter, hc, ih]
  simp [renderServerConf, h]

/-- C7: the clients listing returns exactly the public-safe projection
of each stored client (id, name, public key, address, creation time,
optional expiry), and the output is invariant under any change to the
stored private keys, so the private key never appears in it. -/
theorem listing_is_public_projection (cs : List Client) (f : Client → String) :
    handleClientsGet cs = cs.map toPublic ∧
      handleClientsGet (cs.map (fun c => { c with privKey := f c })) =
        handleClientsGet cs := by
  constructor
  · rfl
  · simp [handleClientsGet, toPublic]

/-- C8: the time-to-live applied when issuing a one-time link is 3600
seconds when the body field is omitted or non-positive and the caller
value otherwise, and on success the token expiry is set that many
seconds after the issuance instant. -/
theorem link_ttl_default_and_expiry (cs : List Client) (ts : List DlToken)
    (id : String) (body : Option LinkReq) (now : Int) (newTok : String) :
    effTTL (some { ttlSeconds := none }) = 3600 ∧
    (∀ t : Int, t ≤ 0 → effTTL (some { ttlSeconds := some t }) = 3600) ∧
    (∀ t : Int, 0 < t → effTTL (some { ttlSeconds := some t }) = t) ∧
    (cs.any (fun c => c.id == id) = true →
      createOneTimeLink cs ts id body now newTok =
        (.issued ("/dl/" ++ newTok) (now + effTTL body),
         ts ++ [{ token := newTok, clientId := id,
                  expiresAt := now + effTTL body, used := false }])) := by
  refine ⟨rfl, ?_, ?_, ?_⟩
  · intro t ht
    simp [effTTL, not_lt.mpr ht]
  · intro t ht
    simp [effTTL, ht]
  · intro hfound
    simp [createOneTimeLink, hfound]

/-- Witness for link_ttl_default_and_expiry at a concrete state. -/
theorem link_ttl_default_and_expiry_witness :
    effTTL (some { ttlSeconds := none }) = 3600 ∧
    createOneTimeLink
        [{ id := "c1", name := "a", publicKey := "P", privKey := "p",
           address := "10.8.0.2/32", createdAt := 0, expiresAt := none }]
        [] "c1" (some { ttlSeconds := some 60 }) 100 "tokA" =
      (.issued "/dl/tokA" 160,
       [{ token := "tokA", clientId := "c1", expiresAt := 160, used := false }]) := by
  have h := link_ttl_default_and_expiry
    [{ id := "c1", name := "a", publicKey := "P", privKey := "p",
       address := "10.8.0.2/32", createdAt := 0, expiresAt := none }]
    [] "c1" (some { ttlSeconds := some 60 }) 100 "tokA"
  exact ⟨h.1, (h.2.2.2 (by decide)).trans (by decide)⟩

/-- C9: issuing a one-time link for an unknown client id fails not-found
and persists no token, while for any stored client, including one whose
expiry has already passed, the link is issued and one token is appended
(client expiry is not consulted at issuance time). -/
theorem link_issue_requires_existing_client (cs : List Client) (ts : List DlToken)
    (id : String) (body : Option LinkReq) (now : Int) (newTok : String) :
    (cs.any (fun c => c.id == id) = false →
      createOneTimeLink cs ts id body now newTok = (.notFound, ts)) ∧
    (∀ c : Client, c ∈ cs → c.id = id → clientExpired c now = true →
      createOneTimeLink cs ts id body now newTok =
        (.issued ("/dl/" ++ newTok) (now + effTTL body),
         ts ++ [{ token := newTok, clientId := id,
                  expiresAt := now + effTTL body, used := false }])) := by
  constructor
  · intro hnone
    simp [createOneTimeLink, hnone]
  · intro c hc hid _
    have hfound : cs.any (fun c => c.id == id) = true := by
      refine List.any_eq_true.mpr ⟨c, hc, ?_⟩
      simp [hid]
    simp [createOneTimeLink, hfound]

/-- Witness for link_issue_requires_existing_client: an unknown id is
refused without persisting, and an expired client still gets a link. -/
theorem link_issue_requires_existing_client_witness :
    createOneTimeLink [] [] "ghost" none 0 "tokB" = (.notFound, []) ∧
    createOneTimeLink
        [{ id := "c2", name := "b", publicKey := "P", privKey := "p",
           address := "10.8.0.3/32", createdAt := 0, expiresAt := some 5 }]
        [] "c2" none 50 "tokC" =
      (.issued "/dl/tokC" 3650,
       [{ token := "tokC", clientId := "c2", expiresAt := 3650, used := false }]) := by
  have h1 := link_issue_requires_existing_client [] [] "ghost" none 0 "tokB"
  have h2 := link_issue_requires_existing_client
    [{ id := "c2", name := "b", publicKey := "P", privKey := "p",
       address := "10.8.0.3/32", createdAt := 0, expiresAt := some 5 }]
    [] "c2" none 50 "tokC"
  refine ⟨h1.1 (by decide), ?_⟩
  have := h2.2
    { id := "c2", name := "b", publicKey := "P", privKey := "p",
      address := "10.8.0.3/32", createdAt := 0, expiresAt := some 5 }
    (by simp) rfl (by decide)
  exact this.trans (by decide)

/-- C10: the link-issuance handler never rejects for a missing or
malformed JSON body: the decode error is discarded, the zero-valued
request remains, and the handler behaves exactly as with an explicit
empty request, issuing with the default 3600-second time-to-live
whenever the client exists. -/
theorem link_body_decode_discarded (cs : List Client) (ts : List DlToken)
    (id : String) (now : Int) (newTok : String) :
    createOneTimeLink cs ts id none now newTok =
      createOneTimeLink cs ts id (some { ttlSeconds := none }) now newTok ∧
    (cs.any (fun c => c.id == id) = true →
      createOneTimeLink cs ts id none now newTok =
        (.issued ("/dl/" ++ newTok) (now + 3600),
         ts ++ [{ token := newTok, clientId := id,
                  expiresAt := now + 3600, used := false }])) := by
  constructor
  · rfl
  · intro hfound
    simp [createOneTimeLink, hfound, effTTL]

/-- Witness for link_body_decode_discarded at a concrete state. -/
theorem link_body_decode_discarded_witness :
    createOneTimeLink
        [{ id := "c3", name := "d", publicKey := "P", privKey := "p",
           address := "10.8.0.4/32", createdAt := 0, expiresAt := none }]
        [] "c3" none 7 "tokD" =
      (.issued "/dl/tokD" 3607,
       [{ token := "tokD", clientId := "c3", expiresAt := 3607, used := false }]) := by
  have h := link_body_decode_discarded
    [{ id := "c3", name := "d", publicKey := "P", privKey := "p",
       address := "10.8.0.4/32", createdAt := 0, expiresAt := none }]
    [] "c3" 7 "tokD"
  exact (h.2 (by decide)).trans (by decide)

/-- C5: on client create and on client delete, when the record snapshots
were persisted but the configuration apply step fails, the handler keeps
the persisted record change (no rollback) and reports the apply failure
to the caller. -/
theorem apply_failure_keeps_persisted_change (st st' : ServerState)
    (cs cs2 : List Client) (name : String) (exp : Option Int)
    (newId privS pubS addr : String) (now : Int) (id : String) :
    (allocateNextAddress st = .ok (addr, st') →
      createClient st cs name exp newId privS pubS now true true false =
        (.applyFailed,
         cs ++ [{ id := newId, name := name, publicKey := pubS, privKey := privS
                  address := addr, createdAt := now, expiresAt := exp }],
         st')) ∧
    (cs2.any (fun c => c.id == id) = true →
      deleteClient cs2 id true false =
        (.applyFailed, cs2.filter (fun c => c.id ≠ id))) := by
  constructor
  · intro halloc
    simp [createClient, halloc]
  · intro hfound
    simp [deleteClient, hfound]

/-- Witness for apply_failure_keeps_persisted_change at concrete
states: an allocation that succeeds and a stored client to delete. -/
theorem apply_failure_keeps_persisted_change_witness :
    createClient
        { serverPrivateKey := "SK", serverPublicKey := "SP",
          subnetBase0 := 10, subnetBase1 := 8, subnetBase2 := 0,
          maskOnes := 24, serverIP := ⟨10, 8, 0, 1⟩, nextHost := 2 }
        [] "alice" none "idA" "ka" "KA" 11 true true false =
      (.applyFailed,
       [{ id := "idA", name := "alice", publicKey := "KA", privKey := "ka",
          address := "10.8.0.2/32", createdAt := 11, expiresAt := none }],
       { serverPrivateKey := "SK", serverPublicKey := "SP",
         subnetBase0 := 10, subnetBase1 := 8, subnetBase2 := 0,
         maskOnes := 24, serverIP := ⟨10, 8, 0, 1⟩, nextHost := 3 }) ∧
    deleteClient
        [{ id := "idA", name := "alice", publicKey := "KA", privKey := "ka",
           address := "10.8.0.2/32", createdAt := 11, expiresAt := none }]
        "idA" true false = (.applyFailed, []) := by
  have h := apply_failure_keeps_persisted_change
    { serverPrivateKey := "SK", serverPublicKey := "SP",
      subnetBase0 := 10, subnetBase1 := 8, subnetBase2 := 0,
      maskOnes := 24, serverIP := ⟨10, 8, 0, 1⟩, nextHost := 2 }
    { serverPrivateKey := "SK", serverPublicKey := "SP",
      subnetBase0 := 10, subnetBase1 := 8, subnetBase2 := 0,
      maskOnes := 24, serverIP := ⟨10, 8, 0, 1⟩, nextHost := 3 }
    [] [{ id := "idA", name := "alice", publicKey := "KA", privKey := "ka",
          address := "10.8.0.2/32", createdAt := 11, expiresAt := none }]
    "alice" none "idA" "ka" "KA" "10.8.0.2/32" 11 "idA"
  refine ⟨h.1 (by rfl), (h.2 (by decide)).trans (by decide)⟩

/-- C3: evaluating the allocator at the reachable configuration with
the gateway occupying host 254 and the persisted cursor at 254: the
bound check passes, the gateway-skip increments the cursor without
re-checking the bound, and the broadcast host 255 is handed out, outside
the 2..254 range the claim states. -/
theorem allocator_returns_broadcast_host :
    allocateIp
        { serverPrivateKey := "SK", serverPublicKey := "SP",
          subnetBase0 := 10, subnetBase1 := 8, subnetBase2 := 0,
          maskOnes := 24, serverIP := ⟨10, 8, 0, 254⟩, nextHost := 254 } =
      .ok ((⟨10, 8, 0, 255⟩ : Ip4),
        { serverPrivateKey := "SK", serverPublicKey := "SP",
          subnetBase0 := 10, subnetBase1 := 8, subnetBase2 := 0,
          maskOnes := 24, serverIP := ⟨10, 8, 0, 254⟩, nextHost := 256 }) ∧
    ¬ (Ip4.o3 ⟨10, 8, 0, 255⟩ ≤ 254) := by
  exact ⟨rfl, by decide⟩

/-- Single-step facts about a successful allocation: the handed-out
host octet is at least the incoming cursor, the outgoing cursor is one
past it, the address differs from the gateway address, and the gateway
address and subnet base are preserved. -/
theorem allocateIp_step {st : ServerState} {a : Ip4} {st' : ServerState}
    (h : allocateIp st = .ok (a, st')) :
    st.nextHost ≤ (a.o3 : Int) ∧ st'.nextHost = (a.o3 : Int) + 1 ∧
      a ≠ st.serverIP ∧ st'.serverIP = st.serverIP := by
  unfold allocateIp at h
  by_cases hm : st.maskOnes ≠ 24
  · simp [hm] at h
  by_cases hb : st.nextHost < 2 ∨ 254 < st.nextHost
  · simp [hm, hb] at h
  have hge : 2 ≤ st.nextHost := by omega
  have hle : st.nextHost ≤ 254 := by omega
  simp only [hm, hb, if_neg, if_false, ite_false] at h
  by_cases hs :
      (⟨st.subnetBase0, st.subnetBase1, st.subnetBase2, st.nextHost.toNat % 256⟩ : Ip4)
        = st.serverIP
  · rw [if_pos hs] at h
    cases h
    refine ⟨by simp only []; omega, by simp only []; omega, ?_, rfl⟩
    intro hcontra
    have h3 : st.serverIP.o3 = st.nextHost.toNat % 256 := by rw [← hs]
    have h4 : st.serverIP.o3 = (st.nextHost + 1).toNat % 256 := by rw [← hcontra]
    omega
  · rw [if_neg hs] at h
    cases h
    refine ⟨by simp only []; omega, by simp only []; omega, hs, rfl⟩

/-- Invariant of a successful allocation sequence: every handed-out
host octet lies between the initial cursor and the final cursor, never
hits the gateway address, the gateway address is preserved, and the
handed-out host octets strictly increase along the sequence. -/
theorem allocSeq_invariant :
    ∀ (n : Nat) (st : ServerState) (as : List Ip4) (stf : ServerState),
      allocSeq st n = some (as, stf) →
      (∀ a ∈ as, st.nextHost ≤ (a.o3 : Int) ∧ (a.o3 : Int) < stf.nextHost ∧
        a ≠ st.serverIP) ∧
      st.nextHost ≤ stf.nextHost ∧ stf.serverIP = st.serverIP ∧
      as.Pairwise (fun x y => (x.o3 : Int) < (y.o3 : Int)) := by
  intro n
  induction n with
  | zero =>
    intro st as stf h
    simp only [allocSeq] at h
    cases h
    exact ⟨by simp, le_refl _, rfl, List.Pairwise.nil⟩
  | succ m ih =>
    intro st as stf h
    simp only [allocSeq] at h
    split at h
    · cases h
    next a st1 halloc =>
      split at h
      · cases h
      next as2 stf2 hseq =>
        cases h
        obtain ⟨hstep1, hstep2, hstep3, hstep4⟩ := allocateIp_step halloc
        obtain ⟨htail, hcur, hsrv, hpw⟩ := ih st1 _ _ hseq
        refine ⟨?_, by omega, by rw [hsrv, hstep4], ?_⟩
        · intro b hb
          cases hb with
          | head => exact ⟨hstep1, by omega, hstep3⟩
          | tail _ hmem =>
            obtain ⟨hb1, hb2, hb3⟩ := htail b hmem
            refine ⟨by omega, hb2, ?_⟩
            rw [← hstep4]; exact hb3
        · refine List.pairwise_cons.mpr ⟨?_, hpw⟩
          intro b hb
          obtain ⟨hb1, _, _⟩ := htail b hb
          omega

/-- C4, amended: within the pool bound, a sequence of successful
allocations on the in-memory state hands out pairwise distinct
addresses, none of them the gateway's own address, and the cursor ends
strictly past every handed-out host octet; durability of the cursor
advance, however, depends on the server-state snapshot being persisted
afterwards. -/
theorem allocSeq_distinct_and_avoids_server (st : ServerState) (n : Nat)
    (as : List Ip4) (stf : ServerState) (h : allocSeq st n = some (as, stf)) :
    as.Pairwise (fun x y => x ≠ y) ∧ (∀ a ∈ as, a ≠ st.serverIP) ∧
      (∀ a ∈ as, (a.o3 : Int) < stf.nextHost) ∧ st.nextHost ≤ stf.nextHost := by
  obtain ⟨hall, hcur, _, hpw⟩ := allocSeq_invariant n st as stf h
  refine ⟨?_, fun a ha => (hall a ha).2.2, fun a ha => (hall a ha).2.1, hcur⟩
  refine hpw.imp ?_
  intro x y hxy hcontra
  rw [hcontra] at hxy
  omega

/-- Witness for allocSeq_distinct_and_avoids_server: two allocations
from the initial state hand out hosts 2 and 3, distinct and unequal to
the gateway host 1, with the cursor ending at 4. -/
theorem allocSeq_distinct_and_avoids_server_witness :
    ([(⟨10, 8, 0, 2⟩ : Ip4), ⟨10, 8, 0, 3⟩].Pairwise (fun x y => x ≠ y) ∧
      (∀ a ∈ [(⟨10, 8, 0, 2⟩ : Ip4), ⟨10, 8, 0, 3⟩],
        a ≠ ({ serverPrivateKey := "SK", serverPublicKey := "SP",
               subnetBase0 := 10, subnetBase1 := 8, subnetBase2 := 0,
               maskOnes := 24, serverIP := ⟨10, 8, 0, 1⟩,
               nextHost := 2 } : ServerState).serverIP) ∧
      (∀ a ∈ [(⟨10, 8, 0, 2⟩ : Ip4), ⟨10, 8, 0, 3⟩],
        (a.o3 : Int) <
          ({ serverPrivateKey := "SK", serverPublicKey := "SP",
             subnetBase0 := 10, subnetBase1 := 8, subnetBase2 := 0,
             maskOnes := 24, serverIP := ⟨10, 8, 0, 1⟩,
             nextHost := 4 } : ServerState).nextHost) ∧
      ({ serverPrivateKey := "SK", serverPublicKey := "SP",
         subnetBase0 := 10, subnetBase1 := 8, subnetBase2 := 0,
         maskOnes := 24, serverIP := ⟨10, 8, 0, 1⟩,
         nextHost := 2 } : ServerState).nextHost ≤
        ({ serverPrivateKey := "SK", serverPublicKey := "SP",
           subnetBase0 := 10, subnetBase1 := 8, subnetBase2 := 0,
           maskOnes := 24, serverIP := ⟨10, 8, 0, 1⟩,
           nextHost := 4 } : ServerState).nextHost) := by
  exact allocSeq_distinct_and_avoids_server
    { serverPrivateKey := "SK", serverPublicKey := "SP",
      subnetBase0 := 10, subnetBase1 := 8, subnetBase2 := 0,
      maskOnes := 24, serverIP := ⟨10, 8, 0, 1⟩, nextHost := 2 }
    2 [⟨10, 8, 0, 2⟩, ⟨10, 8, 0, 3⟩]
    { serverPrivateKey := "SK", serverPublicKey := "SP",
      subnetBase0 := 10, subnetBase1 := 8, subnetBase2 := 0,
      maskOnes := 24, serverIP := ⟨10, 8, 0, 1⟩, nextHost := 4 }
    rfl

/-- C4 counterexample: a creation that persisted the client snapshot
but failed to persist the server-state snapshot leaves the persisted
cursor behind, and the next creation hands the same address 10.8.0.2
out again, so two distinct persisted clients share one address. -/
theorem address_reused_after_state_persist_failure :
    (createClient
        { serverPrivateKey := "SK", serverPublicKey := "SP",
          subnetBase0 := 10, subnetBase1 := 8, subnetBase2 := 0,
          maskOnes := 24, serverIP := ⟨10, 8, 0, 1⟩, nextHost := 2 }
        [] "alice" none "id1" "k1" "K1" 0 true false true).1 = .stateWriteErr ∧
    (createClient
        (createClient
          { serverPrivateKey := "SK", serverPublicKey := "SP",
            subnetBase0 := 10, subnetBase1 := 8, subnetBase2 := 0,
            maskOnes := 24, serverIP := ⟨10, 8, 0, 1⟩, nextHost := 2 }
          [] "alice" none "id1" "k1" "K1" 0 true false true).2.2
        (createClient
          { serverPrivateKey := "SK", serverPublicKey := "SP",
            subnetBase0 := 10, subnetBase1 := 8, subnetBase2 := 0,
            maskOnes := 24, serverIP := ⟨10, 8, 0, 1⟩, nextHost := 2 }
          [] "alice" none "id1" "k1" "K1" 0 true false true).2.1
        "bob" none "id2" "k2" "K2" 1 true true true).2.1.map Client.address =
      ["10.8.0.2/32", "10.8.0.2/32"] := by
  exact ⟨rfl, rfl⟩

/-- Lookup success yields a stored token at that index bearing the
searched value. -/
theorem findTokenIdx_some :
    ∀ (ts : List DlToken) (tok : String) (i : Nat),
      findTokenIdx ts tok = some i → ∃ t, ts[i]? = some t ∧ t.token = tok := by
  intro ts
  induction ts with
  | nil => intro tok i h; cases h
  | cons t rest ih =>
    intro tok i h
    simp only [findTokenIdx] at h
    by_cases he : t.token == tok
    · rw [if_pos he] at h
      cases h
      exact ⟨t, by simp, by simpa using he⟩
    · rw [if_neg he] at h
      cases hrec : findTokenIdx rest tok with
      | none => rw [hrec] at h; cases h
      | some j =>
        rw [hrec] at h
        simp at h
        subst h
        obtain ⟨u, hu1, hu2⟩ := ih tok j hrec
        exact ⟨u, by simpa using hu1, hu2⟩

/-- Updating the found slot keeps the element retrievable at the same
index. -/
theorem getSet_self :
    ∀ (ts : List DlToken) (i : Nat) (t t' : DlToken),
      ts[i]? = some t → (ts.set i t')[i]? = some t' := by
  intro ts
  induction ts with
  | nil => intro i t t' h; simp at h
  | cons u rest ih =>
    intro i t t' h
    cases i with
    | zero => simp [List.set]
    | succ j =>
      simp only [List.getElem?_cons_succ] at h
      simpa only [List.set, List.getElem?_cons_succ] using ih j t t' h

/-- Replacing the found slot with a token bearing the same value keeps
the lookup index unchanged. -/
theorem findTokenIdx_set :
    ∀ (ts : List DlToken) (tok : String) (i : Nat) (t' : DlToken),
      findTokenIdx ts tok = some i → t'.token = tok →
      findTokenIdx (ts.set i t') tok = some i := by
  intro ts
  induction ts with
  | nil => intro tok i t' h _; cases h
  | cons u rest ih =>
    intro tok i t' h ht
    simp only [findTokenIdx] at h
    by_cases he : u.token == tok
    · rw [if_pos he] at h
      cases h
      simp [List.set, findTokenIdx, ht]
    · rw [if_neg he] at h
      cases hrec : findTokenIdx rest tok with
      | none => rw [hrec] at h; cases h
      | some j =>
        rw [hrec] at h
        simp at h
        subst h
        simp [List.set, findTokenIdx, he, ih tok j t' hrec ht]

/-- C1, amended: the used flag is set by the first redemption attempt
that passes the token-level checks (a token with that value is stored,
unused, and unexpired), and it is persisted even when the attempt then
fails because the referenced client no longer exists or has expired;
attempts that fail a token-level check leave the persisted token state
unchanged, and once the flag is set every later attempt on the same
token is refused as gone with no further state change. -/
theorem used_set_by_first_passing_attempt (ts : List DlToken) (cs : List Client)
    (st : ServerState) (endpoint : String) (extraFile allowedFile : Option String)
    (tok : String) (now : Int) :
    (findTokenIdx ts tok = none →
      (handleDownloadToken ts cs st endpoint extraFile allowedFile tok now).2 = ts) ∧
    (∀ i t, ¬ tok = "" → findTokenIdx ts tok = some i → ts[i]? = some t →
      (t.used = true →
        (handleDownloadToken ts cs st endpoint extraFile allowedFile tok now).2 = ts) ∧
      (now > t.expiresAt →
        (handleDownloadToken ts cs st endpoint extraFile allowedFile tok now).2 = ts) ∧
      (t.used = false → ¬ now > t.expiresAt →
        (handleDownloadToken ts cs st endpoint extraFile allowedFile tok now).2 =
          ts.set i { t with used := true } ∧
        handleDownloadToken (ts.set i { t with used := true }) cs st endpoint
            extraFile allowedFile tok now =
          (.gone, ts.set i { t with used := true }))) := by
  constructor
  · intro hnone
    unfold handleDownloadToken
    by_cases htr : tok = ""
    · simp [htr]
    · simp [htr, hnone]
  · intro i t htr hfind hget
    have htokeq : t.token = tok := by
      obtain ⟨u, hu1, hu2⟩ := findTokenIdx_some ts tok i hfind
      rw [hget] at hu1
      cases hu1
      exact hu2
    refine ⟨?_, ?_, ?_⟩
    · intro hused
      unfold handleDownloadToken
      simp [htr, hfind, hget, hused]
    · intro hexp
      unfold handleDownloadToken
      by_cases hused : t.used
      · simp [htr, hfind, hget, hused]
      · simp [htr, hfind, hget, hused, hexp]
    · intro hused hexp
      constructor
      · unfold handleDownloadToken
        simp only [htr, if_false, ite_false, hfind, hget, hused, hexp]
        cases hc : findClient cs t.clientId with
        | none => simp [hc]
        | some c =>
          by_cases hce : clientExpired c now
          · simp [hc, hce]
          · simp [hc, hce]
      · have hfind2 : findTokenIdx (ts.set i { t with used := true }) tok = some i :=
          findTokenIdx_set ts tok i { t with used := true } hfind htokeq
        have hget2 : (ts.set i { t with used := true })[i]? =
            some { t with used := true } := getSet_self ts i t _ hget
        unfold handleDownloadToken
        simp [htr, hfind2, hget2]

/-- C1 counterexample: a stored, unused, unexpired token whose client
record is absent; the redemption attempt fails with not-found, yet the
persisted token state has changed (the used flag is now set). -/
theorem failed_redemption_changes_token_state :
    (handleDownloadToken
        [{ token := "tz", clientId := "ghost", expiresAt := 100, used := false }]
        [] { serverPrivateKey := "SK", serverPublicKey := "SP",
             subnetBase0 := 10, subnetBase1 := 8, subnetBase2 := 0,
             maskOnes := 24, serverIP := ⟨10, 8, 0, 1⟩, nextHost := 2 }
        "" none none "tz" 0).1 = .notFound ∧
    (handleDownloadToken
        [{ token := "tz", clientId := "ghost", expiresAt := 100, used := false }]
        [] { serverPrivateKey := "SK", serverPublicKey := "SP",
             subnetBase0 := 10, subnetBase1 := 8, subnetBase2 := 0,
             maskOnes := 24, serverIP := ⟨10, 8, 0, 1⟩, nextHost := 2 }
        "" none none "tz" 0).2 ≠
      [{ token := "tz", clientId := "ghost", expiresAt := 100, used := false }] := by
  exact ⟨rfl, by decide⟩

/-- Witness for used_set_by_first_passing_attempt: a concrete unused,
unexpired token whose client is gone still gets marked used, and a
second attempt is refused as gone. -/
theorem used_set_by_first_passing_attempt_witness :
    (handleDownloadToken
        [{ token := "tw", clientId := "cw", expiresAt := 100, used := false }]
        [] { serverPrivateKey := "SK", serverPublicKey := "SP",
             subnetBase0 := 10, subnetBase1 := 8, subnetBase2 := 0,
             maskOnes := 24, serverIP := ⟨10, 8, 0, 1⟩, nextHost := 2 }
        "" none none "tw" 0).2 =
      [{ token := "tw", clientId := "cw", expiresAt := 100, used := true }] ∧
    handleDownloadToken
        [{ token := "tw", clientId := "cw", expiresAt := 100, used := true }]
        [] { serverPrivateKey := "SK", serverPublicKey := "SP",
             subnetBase0 := 10, subnetBase1 := 8, subnetBase2 := 0,
             maskOnes := 24, serverIP := ⟨10, 8, 0, 1⟩, nextHost := 2 }
        "" none none "tw" 0 =
      (.gone, [{ token := "tw", clientId := "cw", expiresAt := 100, used := true }]) := by
  have h := used_set_by_first_passing_attempt
    [{ token := "tw", clientId := "cw", expiresAt := 100, used := false }]
    [] { serverPrivateKey := "SK", serverPublicKey := "SP",
         subnetBase0 := 10, subnetBase1 := 8, subnetBase2 := 0,
         maskOnes := 24, serverIP := ⟨10, 8, 0, 1⟩, nextHost := 2 }
    "" none none "tw" 0
  have h2 := (h.2 0 { token := "tw", clientId := "cw", expiresAt := 100, used := false }
    (by decide) rfl rfl).2.2 rfl (by decide)
  exact ⟨h2.1, h2.2⟩

/-- C2, amended: a redemption request fails not-found (404) when no
token with that value is stored; fails gone (410) when the token is
already used or past its expiry; fails gone (410) when the referenced
client has since expired; but fails not-found (404), not gone, when the
referenced client has been deleted; otherwise it succeeds and returns
the rendered client configuration. -/
theorem redeem_status_classification (ts : List DlToken) (cs : List Client)
    (st : ServerState) (endpoint : String) (extraFile allowedFile : Option String)
    (tok : String) (now : Int) :
    (findTokenIdx ts tok = none →
      (handleDownloadToken ts cs st endpoint extraFile allowedFile tok now).1 =
        .notFound) ∧
    (∀ i t, ¬ tok = "" → findTokenIdx ts tok = some i → ts[i]? = some t →
      (t.used = true →
        (handleDownloadToken ts cs st endpoint extraFile allowedFile tok now).1 =
          .gone) ∧
      (t.used = false → now > t.expiresAt →
        (handleDownloadToken ts cs st endpoint extraFile allowedFile tok now).1 =
          .gone) ∧
      (t.used = false → ¬ now > t.expiresAt → findClient cs t.clientId = none →
        (handleDownloadToken ts cs st endpoint extraFile allowedFile tok now).1 =
            .notFound ∧
          redeemStatus
            (handleDownloadToken ts cs st endpoint extraFile allowedFile tok now).1 =
            404) ∧
      (∀ c, t.used = false → ¬ now > t.expiresAt → findClient cs t.clientId = some c →
        (clientExpired c now = true →
          (handleDownloadToken ts cs st endpoint extraFile allowedFile tok now).1 =
              .expired ∧
            redeemStatus
              (handleDownloadToken ts cs st endpoint extraFile allowedFile tok now).1 =
              410) ∧
        (clientExpired c now = false →
          (handleDownloadToken ts cs st endpoint extraFile allowedFile tok now).1 =
            .config (renderClientConfig c st endpoint extraFile allowedFile)))) := by
  constructor
  · intro hnone
    unfold handleDownloadToken
    by_cases htr : tok = ""
    · simp [htr]
    · simp [htr, hnone]
  · intro i t htr hfind hget
    refine ⟨?_, ?_, ?_, ?_⟩
    · intro hused
      unfold handleDownloadToken
      simp [htr, hfind, hget, hused]
    · intro hused hexp
      unfold handleDownloadToken
      simp [htr, hfind, hget, hused, hexp]
    · intro hused hexp hc
      unfold handleDownloadToken
      simp [htr, hfind, hget, hused, hexp, hc, redeemStatus]
    · intro c hused hexp hc
      constructor
      · intro hce
        unfold handleDownloadToken
        simp [htr, hfind, hget, hused, hexp, hc, hce, redeemStatus]
      · intro hce
        unfold handleDownloadToken
        simp [htr, hfind, hget, hused, hexp, hc, hce]

/-- C2 counterexample: a stored, unused, unexpired token whose
referenced client has been deleted is refused with status 404
not-found, not with the 410 gone status the claim requires for a
deleted client. -/
theorem deleted_client_redemption_is_notFound :
    (handleDownloadToken
        [{ token := "ty", clientId := "gone-client", expiresAt := 100, used := false }]
        [] { serverPrivateKey := "SK", serverPublicKey := "SP",
             subnetBase0 := 10, subnetBase1 := 8, subnetBase2 := 0,
             maskOnes := 24, serverIP := ⟨10, 8, 0, 1⟩, nextHost := 2 }
        "" none none "ty" 0).1 = .notFound ∧
    redeemStatus
        (handleDownloadToken
          [{ token := "ty", clientId := "gone-client", expiresAt := 100, used := false }]
          [] { serverPrivateKey := "SK", serverPublicKey := "SP",
               subnetBase0 := 10, subnetBase1 := 8, subnetBase2 := 0,
               maskOnes := 24, serverIP := ⟨10, 8, 0, 1⟩, nextHost := 2 }
          "" none none "ty" 0).1 ≠ 410 := by
  exact ⟨rfl, by decide⟩

/-- Witness for redeem_status_classification: a valid token for a
stored, unexpired client redeems to the rendered configuration. -/
theorem redeem_status_classification_witness :
    (handleDownloadToken
        [{ token := "tv", clientId := "cv", expiresAt := 100, used := false }]
        [{ id := "cv", name := "v", publicKey := "PV", privKey := "kv",
           address := "10.8.0.2/32", createdAt := 0, expiresAt := none }]
        { serverPrivateKey := "SK", serverPublicKey := "SP",
          subnetBase0 := 10, subnetBase1 := 8, subnetBase2 := 0,
          maskOnes := 24, serverIP := ⟨10, 8, 0, 1⟩, nextHost := 2 }
        "vpn.example:51820" none none "tv" 0).1 =
      .config (renderClientConfig
        { id := "cv", name := "v", publicKey := "PV", privKey := "kv",
          address := "10.8.0.2/32", createdAt := 0, expiresAt := none }
        { serverPrivateKey := "SK", serverPublicKey := "SP",
          subnetBase0 := 10, subnetBase1 := 8, subnetBase2 := 0,
          maskOnes := 24, serverIP := ⟨10, 8, 0, 1⟩, nextHost := 2 }
        "vpn.example:51820" none none) := by
  have h := redeem_status_classification
    [{ token := "tv", clientId := "cv", expiresAt := 100, used := false }]
    [{ id := "cv", name := "v", publicKey := "PV", privKey := "kv",
       address := "10.8.0.2/32", createdAt := 0, expiresAt := none }]
    { serverPrivateKey := "SK", serverPublicKey := "SP",
      subnetBase0 := 10, subnetBase1 := 8, subnetBase2 := 0,
      maskOnes := 24, serverIP := ⟨10, 8, 0, 1⟩, nextHost := 2 }
    "vpn.example:51820" none none "tv" 0
  exact ((h.2 0 { token := "tv", clientId := "cv", expiresAt := 100, used := false }
      (by decide) rfl rfl).2.2.2
    { id := "cv", name := "v", publicKey := "PV", privKey := "kv",
      address := "10.8.0.2/32", createdAt := 0, expiresAt := none }
    rfl (by decide) rfl).2 rfl
